import Mathlib

/-!
Verification of the rocktrainer pitch-training engine.

The definitions below are shallow embeddings of the C++ sources:
`src/src/main.cpp` (frequency analyzer, chart loader, play-state update and
main-loop clock), `src/src/chart.hpp` and `src/src/chart_mss.cpp` (measure
chart loader).  C++ `double` arithmetic is modelled with `ℝ` (exact real
arithmetic) where the code is transcendental (`log2`, `pow`) and with `ℚ`
where the code only does field arithmetic on literals; C++ `int`/`int64_t`
are modelled with `ℤ` (no overflow is reachable in the quantities involved).
-/

/-! ## Frequency analyzer (src/src/main.cpp lines 34-104) -/

/-- Embeds `kMaxFrets` (main.cpp line 38). -/
def kMaxFrets : ℤ := 24

/-- Embeds `kStringOpenMidi[6] = {40, 45, 50, 55, 59, 64}` (main.cpp line 60):
standard-tuning MIDI numbers of the open strings, low E to high E. -/
def kStringOpenMidi : List ℤ := [40, 45, 50, 55, 59, 64]

/-- Array access `kStringOpenMidi[s]` (always in bounds in the source loop). -/
def openMidi (s : ℕ) : ℤ := kStringOpenMidi.getD s 0

/-- Embeds `hzToMidi` (main.cpp lines 63-65): `69 + 12·log2(hz/440)`. -/
noncomputable def hzToMidi (hz : ℝ) : ℝ := 69 + 12 * Real.logb 2 (hz / 440)

/-- Embeds `midiToHz` (main.cpp lines 66-68): `440·2^((midi−69)/12)`. -/
noncomputable def midiToHz (midi : ℝ) : ℝ := 440 * (2 : ℝ) ^ ((midi - 69) / 12)

/-- Embeds `(int)std::round(x)`: rounding halfway cases away from zero. -/
noncomputable def roundHA (x : ℝ) : ℤ := if 0 ≤ x then ⌊x + 1 / 2⌋ else ⌈x - 1 / 2⌉

/-- Embeds `struct DetectedNote` (main.cpp lines 77-82). -/
structure DetectedNote where
  midi : ℤ
  cents : ℝ
  stringIdx : ℤ
  fret : ℤ

/-- The accumulator of the string/fret selection loop (main.cpp lines 91-92):
`bestStr`, `bestFret`, `bestDiff` (the C++ `double bestDiff` only ever holds
rational values, so it is modelled with `ℚ`). -/
structure PickAcc where
  bestStr : ℤ
  bestFret : ℤ
  bestDiff : ℚ
deriving DecidableEq

/-- One iteration of the selection loop (main.cpp lines 93-102): `fret` and
`diff` are the named subexpressions `midi - kStringOpenMidi[s]` and
`std::abs((double)fret - (midi - kStringOpenMidi[s]))`, written out. -/
def pickStep (midi : ℤ) (acc : PickAcc) (s : ℕ) : PickAcc :=
  if midi - openMidi s < 0 ∨ midi - openMidi s > kMaxFrets then acc
  else if |((midi - openMidi s : ℤ) : ℚ) - ((midi : ℚ) - (openMidi s : ℚ))| < acc.bestDiff then
    PickAcc.mk s (midi - openMidi s) |((midi - openMidi s : ℤ) : ℚ) - ((midi : ℚ) - (openMidi s : ℚ))|
  else acc

/-- The whole selection loop `for (int s = 0; s < 6; ++s)` with initial
`bestStr = -1, bestFret = -1, bestDiff = 1e9` (main.cpp lines 91-102). -/
def pickStringFret (midi : ℤ) : PickAcc :=
  (List.range 6).foldl (pickStep midi) (PickAcc.mk (-1) (-1) 1000000000)

/-- Embeds `analyzeFrequency` (main.cpp lines 83-104). -/
noncomputable def analyzeFrequency (hz : ℝ) : Option DetectedNote :=
  if hz ≤ 0 then none
  else
    some (DetectedNote.mk (roundHA (hzToMidi hz))
      (1200 * Real.logb 2 (hz / midiToHz ((roundHA (hzToMidi hz) : ℤ) : ℝ)))
      (pickStringFret (roundHA (hzToMidi hz))).bestStr
      (pickStringFret (roundHA (hzToMidi hz))).bestFret)

/-- A valid fretboard position for a MIDI number: some string `s < 6` whose
open pitch plus fret `f` (with `0 ≤ f ≤ 24`) reproduces it. -/
def validPos (m : ℤ) (s : ℕ) (f : ℤ) : Prop :=
  s < 6 ∧ openMidi s + f = m ∧ 0 ≤ f ∧ f ≤ kMaxFrets

instance (m : ℤ) (s : ℕ) (f : ℤ) : Decidable (validPos m s f) := by
  unfold validPos; infer_instance

/-! ### Characterizing the selection loop -/

lemma pickDiff_eq_zero (m o : ℤ) : |((m - o : ℤ) : ℚ) - ((m : ℚ) - (o : ℚ))| = 0 := by
  push_cast
  simp

lemma pickStep_invalid (m : ℤ) (acc : PickAcc) (s : ℕ)
    (h : m - openMidi s < 0 ∨ m - openMidi s > kMaxFrets) :
    pickStep m acc s = acc := by
  unfold pickStep
  rw [if_pos h]

lemma pickStep_first (m : ℤ) (s : ℕ)
    (h : ¬(m - openMidi s < 0 ∨ m - openMidi s > kMaxFrets)) :
    pickStep m (PickAcc.mk (-1) (-1) 1000000000) s = PickAcc.mk s (m - openMidi s) 0 := by
  unfold pickStep
  rw [if_neg h, pickDiff_eq_zero, if_pos (by norm_num)]

lemma pickStep_keep (m : ℤ) (s : ℕ) (a b : ℤ) :
    pickStep m (PickAcc.mk a b 0) s = PickAcc.mk a b 0 := by
  unfold pickStep
  split_ifs with h1 h2
  · rfl
  · rw [pickDiff_eq_zero] at h2
    exact absurd h2 (lt_irrefl 0)
  · rfl

/-- The selection loop always keeps the first valid candidate in string order:
the `diff` compared at main.cpp line 96 is identically zero, so no later
candidate ever beats the first one scanned. -/
lemma pick_eq (m : ℤ) :
    pickStringFret m =
      if 40 ≤ m ∧ m ≤ 64 then PickAcc.mk 0 (m - 40) 0
      else if 45 ≤ m ∧ m ≤ 69 then PickAcc.mk 1 (m - 45) 0
      else if 50 ≤ m ∧ m ≤ 74 then PickAcc.mk 2 (m - 50) 0
      else if 55 ≤ m ∧ m ≤ 79 then PickAcc.mk 3 (m - 55) 0
      else if 59 ≤ m ∧ m ≤ 83 then PickAcc.mk 4 (m - 59) 0
      else if 64 ≤ m ∧ m ≤ 88 then PickAcc.mk 5 (m - 64) 0
      else PickAcc.mk (-1) (-1) 1000000000 := by
  have hopen0 : openMidi 0 = 40 := rfl
  have hopen1 : openMidi 1 = 45 := rfl
  have hopen2 : openMidi 2 = 50 := rfl
  have hopen3 : openMidi 3 = 55 := rfl
  have hopen4 : openMidi 4 = 59 := rfl
  have hopen5 : openMidi 5 = 64 := rfl
  have hkm : kMaxFrets = 24 := rfl
  unfold pickStringFret
  rw [show List.range 6 = [0, 1, 2, 3, 4, 5] from rfl]
  simp only [List.foldl]
  by_cases h0 : 40 ≤ m ∧ m ≤ 64
  · rw [pickStep_first m 0 (by rw [hopen0, hkm]; omega),
      pickStep_keep, pickStep_keep, pickStep_keep, pickStep_keep, pickStep_keep,
      if_pos h0, hopen0]
    norm_num
  · by_cases h1 : 45 ≤ m ∧ m ≤ 69
    · rw [pickStep_invalid m _ 0 (by rw [hopen0, hkm]; omega),
        pickStep_first m 1 (by rw [hopen1, hkm]; omega),
        pickStep_keep, pickStep_keep, pickStep_keep, pickStep_keep,
        if_neg h0, if_pos h1, hopen1]
      norm_num
    · by_cases h2 : 50 ≤ m ∧ m ≤ 74
      · rw [pickStep_invalid m _ 0 (by rw [hopen0, hkm]; omega),
          pickStep_invalid m _ 1 (by rw [hopen1, hkm]; omega),
          pickStep_first m 2 (by rw [hopen2, hkm]; omega),
          pickStep_keep, pickStep_keep, pickStep_keep,
          if_neg h0, if_neg h1, if_pos h2, hopen2]
        norm_num
      · by_cases h3 : 55 ≤ m ∧ m ≤ 79
        · rw [pickStep_invalid m _ 0 (by rw [hopen0, hkm]; omega),
            pickStep_invalid m _ 1 (by rw [hopen1, hkm]; omega),
            pickStep_invalid m _ 2 (by rw [hopen2, hkm]; omega),
            pickStep_first m 3 (by rw [hopen3, hkm]; omega),
            pickStep_keep, pickStep_keep,
            if_neg h0, if_neg h1, if_neg h2, if_pos h3, hopen3]
          norm_num
        · by_cases h4 : 59 ≤ m ∧ m ≤ 83
          · rw [pickStep_invalid m _ 0 (by rw [hopen0, hkm]; omega),
              pickStep_invalid m _ 1 (by rw [hopen1, hkm]; omega),
              pickStep_invalid m _ 2 (by rw [hopen2, hkm]; omega),
              pickStep_invalid m _ 3 (by rw [hopen3, hkm]; omega),
              pickStep_first m 4 (by rw [hopen4, hkm]; omega),
              pickStep_keep,
              if_neg h0, if_neg h1, if_neg h2, if_neg h3, if_pos h4, hopen4]
            norm_num
          · by_cases h5 : 64 ≤ m ∧ m ≤ 88
            · rw [pickStep_invalid m _ 0 (by rw [hopen0, hkm]; omega),
                pickStep_invalid m _ 1 (by rw [hopen1, hkm]; omega),
                pickStep_invalid m _ 2 (by rw [hopen2, hkm]; omega),
                pickStep_invalid m _ 3 (by rw [hopen3, hkm]; omega),
                pickStep_invalid m _ 4 (by rw [hopen4, hkm]; omega),
                pickStep_first m 5 (by rw [hopen5, hkm]; omega),
                if_neg h0, if_neg h1, if_neg h2, if_neg h3, if_neg h4, if_pos h5, hopen5]
              norm_num
            · rw [pickStep_invalid m _ 0 (by rw [hopen0, hkm]; omega),
                pickStep_invalid m _ 1 (by rw [hopen1, hkm]; omega),
                pickStep_invalid m _ 2 (by rw [hopen2, hkm]; omega),
                pickStep_invalid m _ 3 (by rw [hopen3, hkm]; omega),
                pickStep_invalid m _ 4 (by rw [hopen4, hkm]; omega),
                pickStep_invalid m _ 5 (by rw [hopen5, hkm]; omega),
                if_neg h0, if_neg h1, if_neg h2, if_neg h3, if_neg h4, if_neg h5]

/-! ### Real-valued pitch arithmetic -/

lemma midiToHz_pos (m : ℝ) : 0 < midiToHz m := by
  unfold midiToHz
  positivity

lemma hzToMidi_midiToHz (m : ℝ) : hzToMidi (midiToHz m) = m := by
  unfold hzToMidi midiToHz
  rw [mul_div_cancel_left₀ _ (by norm_num : (440 : ℝ) ≠ 0),
    Real.logb_rpow (by norm_num) (by norm_num)]
  ring

lemma roundHA_intCast (m : ℤ) : roundHA (m : ℝ) = m := by
  unfold roundHA
  split_ifs with h
  · rw [show ((m : ℝ) + 1 / 2) = (m : ℝ) + (1 / 2 : ℝ) from rfl, Int.floor_eq_iff]
    constructor <;> [skip; skip] <;> push_cast <;> linarith
  · rw [Int.ceil_eq_iff]
    constructor <;> push_cast <;> linarith

lemma abs_sub_roundHA (x : ℝ) : |x - roundHA x| ≤ 1 / 2 := by
  unfold roundHA
  split_ifs with h
  · have h1 := Int.floor_le (x + 1 / 2)
    have h2 := Int.lt_floor_add_one (x + 1 / 2)
    rw [abs_le]
    constructor <;> push_cast at h1 h2 ⊢ <;> linarith
  · have h1 := Int.le_ceil (x - 1 / 2)
    have h2 := Int.ceil_lt_add_one (x - 1 / 2)
    rw [abs_le]
    constructor <;> push_cast at h1 h2 ⊢ <;> linarith

/-- The cents expression of main.cpp line 88, rewritten through the logarithm
identities: it equals 100 times the distance from the fractional MIDI value to
the integer `m` it was rounded to. -/
lemma cents_eq (hz : ℝ) (hpos : 0 < hz) (m : ℤ) :
    1200 * Real.logb 2 (hz / midiToHz (m : ℝ)) = 100 * (hzToMidi hz - m) := by
  have href : (0 : ℝ) < midiToHz (m : ℝ) := midiToHz_pos _
  have hrw : Real.logb 2 (hz / midiToHz (m : ℝ)) =
      Real.logb 2 hz - Real.logb 2 (midiToHz (m : ℝ)) :=
    Real.logb_div (ne_of_gt hpos) (ne_of_gt href)
  have hmid : Real.logb 2 (midiToHz (m : ℝ)) =
      Real.logb 2 440 + ((m : ℝ) - 69) / 12 := by
    unfold midiToHz
    rw [Real.logb_mul (by norm_num) (ne_of_gt (Real.rpow_pos_of_pos (by norm_num) _)),
      Real.logb_rpow (by norm_num) (by norm_num)]
  have hhz : hzToMidi hz = 69 + 12 * (Real.logb 2 hz - Real.logb 2 440) := by
    unfold hzToMidi
    rw [Real.logb_div (ne_of_gt hpos) (by norm_num)]
  rw [hrw, hmid, hhz]
  ring

/-- Evaluation of `analyzeFrequency` at the exact pitch of an integer MIDI
number: the rounded MIDI is that number, the cents deviation is zero and the
string/fret pair is whatever the selection loop picks. -/
lemma analyze_exact (m : ℤ) :
    analyzeFrequency (midiToHz (m : ℝ)) =
      some (DetectedNote.mk m 0 (pickStringFret m).bestStr (pickStringFret m).bestFret) := by
  have hpos : (0 : ℝ) < midiToHz (m : ℝ) := midiToHz_pos _
  have hmidi : hzToMidi (midiToHz (m : ℝ)) = (m : ℝ) := hzToMidi_midiToHz _
  have hround : roundHA (hzToMidi (midiToHz (m : ℝ))) = m := by
    rw [hmidi, roundHA_intCast]
  unfold analyzeFrequency
  rw [if_neg (not_le.mpr hpos), hround]
  have hcents : 1200 * Real.logb 2 (midiToHz (m : ℝ) / midiToHz ((m : ℤ) : ℝ)) = 0 := by
    rw [div_self (ne_of_gt hpos), Real.logb_one, mul_zero]
  rw [hcents]

/-- Whenever a valid candidate exists, the loop keeps the first valid string
(the lowest string index), whose fret is the largest among all candidates. -/
lemma pick_spec_valid (m : ℤ) (s : ℕ) (f : ℤ) (h : validPos m s f) :
    0 ≤ (pickStringFret m).bestStr ∧ (pickStringFret m).bestStr ≤ (s : ℤ) ∧
      f ≤ (pickStringFret m).bestFret ∧
      validPos m (pickStringFret m).bestStr.toNat (pickStringFret m).bestFret := by
  obtain ⟨hs, hsum, hf0, hf24⟩ := h
  rw [pick_eq]
  interval_cases s <;>
    simp only [show openMidi 0 = 40 from rfl, show openMidi 1 = 45 from rfl,
      show openMidi 2 = 50 from rfl, show openMidi 3 = 55 from rfl,
      show openMidi 4 = 59 from rfl, show openMidi 5 = 64 from rfl,
      show kMaxFrets = (24 : ℤ) from rfl] at hsum hf24 ⊢ <;>
    split_ifs <;>
    simp only [validPos, show ((0 : ℤ).toNat) = 0 from rfl, show ((1 : ℤ).toNat) = 1 from rfl,
      show ((2 : ℤ).toNat) = 2 from rfl, show ((3 : ℤ).toNat) = 3 from rfl,
      show ((4 : ℤ).toNat) = 4 from rfl, show ((5 : ℤ).toNat) = 5 from rfl,
      show openMidi 0 = 40 from rfl, show openMidi 1 = 45 from rfl,
      show openMidi 2 = 50 from rfl, show openMidi 3 = 55 from rfl,
      show openMidi 4 = 59 from rfl, show openMidi 5 = 64 from rfl,
      show kMaxFrets = (24 : ℤ) from rfl] <;>
    omega

/-- Evaluation at the exact pitch of MIDI 52 (E3): strings 6, 5 and 4 offer
frets 12, 7 and 2, and the loop keeps string index 0 with fret 12. -/
lemma analyze_midi52 :
    analyzeFrequency (midiToHz ((52 : ℤ) : ℝ)) = some (DetectedNote.mk 52 0 0 12) := by
  rw [analyze_exact, pick_eq]
  norm_num

/-- Evaluation at the exact pitch of MIDI 69 (A4, 440 Hz): the loop keeps
string index 1 with fret 24. -/
lemma analyze_midi69 :
    analyzeFrequency (midiToHz ((69 : ℤ) : ℝ)) = some (DetectedNote.mk 69 0 1 24) := by
  rw [analyze_exact, pick_eq]
  norm_num

/-- C1 counterexample: at the exact pitch of MIDI 52, `analyzeFrequency`
selects string index 0 with fret 12, although fret 2 on string index 2 is a
valid candidate with a strictly lower fret — so the selection is not
"lowest fret first". -/
theorem c1_counterexample :
    (analyzeFrequency (midiToHz ((52 : ℤ) : ℝ))).map (fun d => (d.stringIdx, d.fret)) =
        some ((0 : ℤ), (12 : ℤ)) ∧
      validPos 52 2 2 ∧ ¬((12 : ℤ) ≤ 2) := by
  refine ⟨?_, by decide, by decide⟩
  rw [analyze_midi52]
  rfl

/-- C1 (amended): among all valid (string, fret) candidates for the rounded
MIDI number, `analyzeFrequency` selects the candidate with the lowest string
index — equivalently, the one with the highest (not lowest) fret, since the
open-string table is increasing. -/
theorem c1_lowest_string_selected :
    ∀ (hz : ℝ), 0 < hz → ∀ d, analyzeFrequency hz = some d →
      ∀ (s : ℕ) (f : ℤ), validPos (roundHA (hzToMidi hz)) s f →
        0 ≤ d.stringIdx ∧ d.stringIdx ≤ (s : ℤ) ∧ f ≤ d.fret ∧
          validPos (roundHA (hzToMidi hz)) d.stringIdx.toNat d.fret := by
  intro hz hpos d hd s f hv
  unfold analyzeFrequency at hd
  rw [if_neg (not_le.mpr hpos)] at hd
  cases hd
  exact pick_spec_valid _ s f hv

/-- C1 witness: the amended theorem applied at the exact pitch of MIDI 52
with the valid candidate (string index 2, fret 2). -/
theorem c1_witness :
    0 ≤ (DetectedNote.mk 52 0 0 12).stringIdx ∧
      (DetectedNote.mk 52 0 0 12).stringIdx ≤ ((2 : ℕ) : ℤ) ∧
      (2 : ℤ) ≤ (DetectedNote.mk 52 0 0 12).fret ∧
      validPos (roundHA (hzToMidi (midiToHz ((52 : ℤ) : ℝ))))
        (DetectedNote.mk 52 0 0 12).stringIdx.toNat (DetectedNote.mk 52 0 0 12).fret :=
  c1_lowest_string_selected (midiToHz ((52 : ℤ) : ℝ)) (midiToHz_pos _) _ analyze_midi52 2 2
    (by rw [hzToMidi_midiToHz, roundHA_intCast]; decide)

/-- C9: for every positive input frequency, the cents deviation reported by
`analyzeFrequency` relative to the rounded MIDI number satisfies
`|cents| ≤ 600` (it is in fact at most 50). -/
theorem c9_cents_bounded :
    ∀ (hz : ℝ), 0 < hz → ∀ d, analyzeFrequency hz = some d → |d.cents| ≤ 600 := by
  intro hz hpos d hd
  unfold analyzeFrequency at hd
  rw [if_neg (not_le.mpr hpos)] at hd
  cases hd
  dsimp only
  rw [cents_eq hz hpos]
  have h1 : |hzToMidi hz - (roundHA (hzToMidi hz) : ℝ)| ≤ 1 / 2 := abs_sub_roundHA _
  calc |100 * (hzToMidi hz - (roundHA (hzToMidi hz) : ℝ))|
      = 100 * |hzToMidi hz - (roundHA (hzToMidi hz) : ℝ)| := by
        rw [abs_mul]
        norm_num
    _ ≤ 100 * (1 / 2) := mul_le_mul_of_nonneg_left h1 (by norm_num)
    _ ≤ 600 := by norm_num

/-- C9 witness: the bound applied at the exact pitch of MIDI 69 (440 Hz),
where the cents deviation is 0. -/
theorem c9_witness : |(DetectedNote.mk 69 0 1 24).cents| ≤ 600 :=
  c9_cents_bounded (midiToHz ((69 : ℤ) : ℝ)) (midiToHz_pos _) _ analyze_midi69

/-! ## Note events and gameplay judgment

`struct NoteEvent` is in the sources (main.cpp lines 42-49); the gameplay
evaluator `updateGameplay` and the `stats` member it updates are referenced
only by `src/tests/play_stats_test.cpp` — their definitions are not among the
repository files provided, so the judgment engine below is modelled from the
specification (spec.md sections 3 and 4.3). -/

/-- Embeds `struct NoteEvent` (main.cpp lines 42-49): `str` is 1..6 with
1 = high E, `fret` 0..24, times in milliseconds. -/
structure NoteEvent where
  t_ms : ℤ
  str : ℤ
  fret : ℤ
  len_ms : ℤ
  slideTo : ℤ
  techs : List String
deriving DecidableEq

/-- Modelled from the spec: the aggregate `Stats` owned by the judgment
engine (spec.md section 3) — hit count, miss count, current combo, maximum
combo; accuracy is derived, not stored. -/
structure Stats where
  hits : ℕ
  misses : ℕ
  combo : ℕ
  maxCombo : ℕ
deriving DecidableEq

/-- Modelled from the spec: derived accuracy, `hits / (hits + misses) × 100`,
defined as 0 when no notes have been judged yet (spec.md sections 3 and 4.3
step 5). -/
def accuracy (st : Stats) : ℚ :=
  if st.hits + st.misses = 0 then 0
  else (st.hits : ℚ) / ((st.hits : ℚ) + (st.misses : ℚ)) * 100

/-- Modelled from the spec: the per-note judgment state machine
{Pending, Hit, Missed}, terminal once Hit or Missed (spec.md section 3). -/
inductive JState where
  | pending
  | hit
  | missed
deriving DecidableEq

/-- Modelled from the spec: the fixed judgment constants `earlyMs`, `lateMs`
and `centsTolerance` (spec.md section 4.3); the spec fixes no numeric values,
so they stay parameters. -/
structure JudgeCfg where
  earlyMs : ℤ
  lateMs : ℤ
  centsTol : ℝ

/-- Modelled from the spec: a detected note matches a chart note when its
chosen (string, fret) equals the note's (string, fret) and `|cents|` is
within tolerance (spec.md section 4.3 step 3).  `DetectedNote.stringIdx` is
0-based from the lowest string while `NoteEvent.str` is 1..6 with 1 = high E,
so the comparison converts with `6 - stringIdx` (the same conversion the
source display code uses, main.cpp line 475). -/
def hitMatch (cfg : JudgeCfg) (d : DetectedNote) (n : NoteEvent) : Prop :=
  6 - d.stringIdx = n.str ∧ d.fret = n.fret ∧ |d.cents| ≤ cfg.centsTol

noncomputable instance (cfg : JudgeCfg) (d : DetectedNote) (n : NoteEvent) :
    Decidable (hitMatch cfg d n) :=
  Classical.propDecidable _

/-- Modelled from the spec: one evaluation of a single note at chart time `T`
(spec.md section 4.3 steps 1-4): terminal states are skipped; a pending note
is eligible while `T ∈ [t_ms − earlyMs, t_ms + len_ms + lateMs)`; while
eligible a matching detection fires Hit; once `T` is past the window end the
note is Missed. -/
noncomputable def judgeOne (cfg : JudgeCfg) (det : Option DetectedNote) (T : ℤ)
    (n : NoteEvent) (js : JState) (st : Stats) : JState × Stats :=
  match js with
  | JState.hit => (JState.hit, st)
  | JState.missed => (JState.missed, st)
  | JState.pending =>
    if n.t_ms - cfg.earlyMs ≤ T ∧ T < n.t_ms + n.len_ms + cfg.lateMs then
      match det with
      | some d =>
        if hitMatch cfg d n then
          (JState.hit, Stats.mk (st.hits + 1) st.misses (st.combo + 1)
            (max st.maxCombo (st.combo + 1)))
        else (JState.pending, st)
      | none => (JState.pending, st)
    else if n.t_ms + n.len_ms + cfg.lateMs ≤ T then
      (JState.missed, Stats.mk st.hits (st.misses + 1) 0 st.maxCombo)
    else (JState.pending, st)

/-- Modelled from the spec: one evaluation tick over the whole chart — each
pending note is advanced in chart order and the aggregate stats updated
(spec.md section 4.3); this is the `updateGameplay(app, T)` the source test
calls. -/
noncomputable def updateGameplay (cfg : JudgeCfg) (det : Option DetectedNote) (T : ℤ) :
    List (NoteEvent × JState) → Stats → List (NoteEvent × JState) × Stats
  | [], st => ([], st)
  | (n, js) :: rest, st =>
    let r := judgeOne cfg det T n js st
    let rr := updateGameplay cfg det T rest r.2
    ((n, r.1) :: rr.1, rr.2)

/-- The one-note chart of Scenario A and of `play_stats_test.cpp`:
`{t=0, string=6, fret=24, len=100}`. -/
def scenarioNote : NoteEvent := NoteEvent.mk 0 6 24 100 (-1) []

/-- Evaluation at the exact pitch of MIDI 64 (E4, the open high E the test
stores): the selection loop keeps string index 0 (the low E string) with
fret 24 — which coincides with the chart note of Scenario A. -/
lemma analyze_midi64 :
    analyzeFrequency (midiToHz ((64 : ℤ) : ℝ)) = some (DetectedNote.mk 64 0 0 24) := by
  rw [analyze_exact, pick_eq]
  norm_num

/-- C2: with the single note `{t=0, string=6, fret=24, len=100}` and the
detected pitch `midiToHz(kStringOpenMidi[5])` (exact MIDI 64, cents 0), one
gameplay evaluation at chart time 0 yields hits = 1, combo = 1, misses = 0
and accuracy > 99, for every configuration with nonnegative `earlyMs`,
`lateMs` and cents tolerance. -/
theorem c2_scenario_a :
    ∀ cfg : JudgeCfg, 0 ≤ cfg.earlyMs → 0 ≤ cfg.lateMs → 0 ≤ cfg.centsTol →
      (updateGameplay cfg (analyzeFrequency (midiToHz ((64 : ℤ) : ℝ))) 0
          [(scenarioNote, JState.pending)] (Stats.mk 0 0 0 0)).2 = Stats.mk 1 0 1 1 ∧
        accuracy ((updateGameplay cfg (analyzeFrequency (midiToHz ((64 : ℤ) : ℝ))) 0
          [(scenarioNote, JState.pending)] (Stats.mk 0 0 0 0)).2) > 99 := by
  intro cfg hearly hlate htol
  have helig : scenarioNote.t_ms - cfg.earlyMs ≤ 0 ∧
      0 < scenarioNote.t_ms + scenarioNote.len_ms + cfg.lateMs := by
    unfold scenarioNote
    dsimp only
    omega
  have hmatch : hitMatch cfg (DetectedNote.mk 64 0 0 24) scenarioNote := by
    refine ⟨by norm_num [scenarioNote], by norm_num [scenarioNote], ?_⟩
    dsimp only
    rwa [abs_zero]
  have hres : (updateGameplay cfg (analyzeFrequency (midiToHz ((64 : ℤ) : ℝ))) 0
      [(scenarioNote, JState.pending)] (Stats.mk 0 0 0 0)).2 = Stats.mk 1 0 1 1 := by
    rw [analyze_midi64]
    unfold updateGameplay judgeOne
    dsimp only
    rw [if_pos helig, if_pos hmatch]
    rfl
  refine ⟨hres, ?_⟩
  rw [hres]
  unfold accuracy
  norm_num

/-- C2 witness: the scenario evaluated at the concrete configuration
`earlyMs = 150, lateMs = 150, centsTolerance = 30`. -/
theorem c2_witness :
    (updateGameplay (JudgeCfg.mk 150 150 30) (analyzeFrequency (midiToHz ((64 : ℤ) : ℝ))) 0
        [(scenarioNote, JState.pending)] (Stats.mk 0 0 0 0)).2 = Stats.mk 1 0 1 1 ∧
      accuracy ((updateGameplay (JudgeCfg.mk 150 150 30)
        (analyzeFrequency (midiToHz ((64 : ℤ) : ℝ))) 0
        [(scenarioNote, JState.pending)] (Stats.mk 0 0 0 0)).2) > 99 :=
  c2_scenario_a (JudgeCfg.mk 150 150 30) (by norm_num) (by norm_num) (by norm_num)

/-! ## Play state, latency offset and the chart clock
(src/src/main.cpp lines 235-249, 630-636, 733-739) -/

/-- Embeds `enum class AppState` (main.cpp line 235). -/
inductive AppStateE where
  | Title
  | Library
  | Tuner
  | FreePlay
  | Settings
  | Play
deriving DecidableEq

/-- The part of `struct App` (main.cpp lines 237-249) and of the globals that
the Play-state clock and key handling touch: the state, the `playing` pause
flag, the clock origin `t0` (a steady-clock instant, in ms) and
`g_latencyOffsetMs` (main.cpp line 57). -/
structure AppM where
  state : AppStateE
  playing : Bool
  t0 : ℤ
  latencyOffsetMs : ℤ
deriving DecidableEq

/-- The keys `updatePlay` reacts to (main.cpp lines 630-636); `other` stands
for every remaining key. -/
inductive KeyE where
  | escape
  | space
  | equals
  | plus
  | minus
  | other
deriving DecidableEq

/-- Embeds `updatePlay` (main.cpp lines 630-636) for a KEYDOWN event: the
four independent `if` statements in source order. -/
def updatePlay (a : AppM) (k : KeyE) : AppM :=
  let a1 := if k = KeyE.escape then AppM.mk AppStateE.Title a.playing a.t0 a.latencyOffsetMs else a
  let a2 := if k = KeyE.space then AppM.mk a1.state (!a1.playing) a1.t0 a1.latencyOffsetMs else a1
  let a3 := if k = KeyE.equals ∨ k = KeyE.plus then
      AppM.mk a2.state a2.playing a2.t0 (a2.latencyOffsetMs + 5) else a2
  if k = KeyE.minus then AppM.mk a3.state a3.playing a3.t0 (a3.latencyOffsetMs - 5) else a3

/-- Embeds the per-frame chart-time computation of the main loop (main.cpp
lines 733-739): in the Play state, `now_ms = now - t0`; when not playing,
`t0` is then reset to the current instant; finally the latency offset is
added.  Returns the chart time used by this frame and the updated state. -/
def playTick (a : AppM) (now : ℤ) : ℤ × AppM :=
  if a.state = AppStateE.Play then
    let now_ms := now - a.t0
    let a' := if a.playing = false then AppM.mk a.state a.playing now a.latencyOffsetMs else a
    (now_ms + a.latencyOffsetMs, a')
  else (0, a)

/-- C3: tracing the code at a concrete pause. Playing from origin 0, the user
pauses (SPACE) at real time 1000 ms.  The same frame still shows chart time
1000, but the next frame (16 ms later) shows chart time 16 — the chart time
does not stay frozen at 1000 and has moved backward — and after resuming,
the following frame (4 ms later) shows 4, not a continuation of 1000. -/
theorem c3_pause_rewinds_time :
    (playTick (updatePlay (AppM.mk AppStateE.Play true 0 0) KeyE.space) 1000).1 = 1000 ∧
      (playTick (playTick (updatePlay (AppM.mk AppStateE.Play true 0 0) KeyE.space) 1000).2
        1016).1 = 16 ∧
      (playTick (updatePlay
        (playTick (playTick (updatePlay (AppM.mk AppStateE.Play true 0 0) KeyE.space) 1000).2
          1016).2 KeyE.space) 1020).1 = 4 ∧
      ¬(1000 ≤ (playTick
        (playTick (updatePlay (AppM.mk AppStateE.Play true 0 0) KeyE.space) 1000).2
        1016).1) := by
  decide

/-- C8: in the Play state, the `=`/`+` keys add exactly 5 ms to the latency
offset, the `-` key subtracts exactly 5 ms — for every current state, so the
accumulated value is unbounded in the model — and every frame's chart time is
exactly the elapsed time since the origin plus the current latency offset. -/
theorem c8_latency_steps_and_clock :
    ∀ a : AppM,
      (updatePlay a KeyE.equals).latencyOffsetMs = a.latencyOffsetMs + 5 ∧
      (updatePlay a KeyE.plus).latencyOffsetMs = a.latencyOffsetMs + 5 ∧
      (updatePlay a KeyE.minus).latencyOffsetMs = a.latencyOffsetMs - 5 ∧
      ∀ now : ℤ, a.state = AppStateE.Play →
        (playTick a now).1 = (now - a.t0) + a.latencyOffsetMs := by
  intro a
  refine ⟨?_, ?_, ?_, ?_⟩
  · simp [updatePlay]
  · simp [updatePlay]
  · simp [updatePlay]
  · intro now hst
    simp [playTick, hst]

/-- C8 witness: the latency steps and the clock formula at a concrete Play
state with origin 40, latency 35 and frame instant 100. -/
theorem c8_witness :
    (updatePlay (AppM.mk AppStateE.Play true 40 35) KeyE.equals).latencyOffsetMs = 35 + 5 ∧
      (updatePlay (AppM.mk AppStateE.Play true 40 35) KeyE.plus).latencyOffsetMs = 35 + 5 ∧
      (updatePlay (AppM.mk AppStateE.Play true 40 35) KeyE.minus).latencyOffsetMs = 35 - 5 ∧
      (playTick (AppM.mk AppStateE.Play true 40 35) 100).1 = (100 - 40) + 35 :=
  let h := c8_latency_steps_and_clock (AppM.mk AppStateE.Play true 40 35)
  ⟨h.1, h.2.1, h.2.2.1, h.2.2.2 100 rfl⟩

/-! ## The sign/finiteness guard of analyzeFrequency (C5)

The C++ guard at main.cpp line 84 is `if (hz <= 0.0) return std::nullopt;`
over IEEE doubles.  The special values are modelled explicitly: a comparison
with NaN is false, `-∞ ≤ 0` is true, `+∞ ≤ 0` is false.  Every other path of
the function ends at line 103 returning an engaged optional, so the function
returns the empty optional exactly when this guard fires (for NaN and +∞ the
later `(int)std::round` cast is undefined behavior, but no path returns
`nullopt`). -/

/-- An IEEE double as the guard sees it: a finite value (a double is a
rational number), NaN, or a signed infinity. -/
inductive Fp where
  | fin (q : ℚ)
  | nan
  | posInf
  | negInf
deriving DecidableEq

/-- IEEE evaluation of `hz <= 0.0` (main.cpp line 84): false for NaN. -/
def fpLeZero : Fp → Bool
  | Fp.fin q => decide (q ≤ 0)
  | Fp.nan => false
  | Fp.posInf => false
  | Fp.negInf => true

/-- Whether `analyzeFrequency` returns `std::nullopt` on the given input: the
early return at line 84 is the only `return std::nullopt` in the function. -/
def analyzeReturnsNone (x : Fp) : Bool := fpLeZero x

/-- C5 counterexample: `analyzeFrequency(+∞)` does not return the empty
optional — `+∞ <= 0.0` is false, so the guard falls through (and likewise for
NaN), contradicting the claim that every non-finite input yields
"no signal". -/
theorem c5_counterexample :
    analyzeReturnsNone Fp.posInf = false ∧ analyzeReturnsNone Fp.nan = false := by
  decide

/-- C5 (amended): the analyzer returns "no signal" exactly for inputs
compairing `≤ 0` under IEEE semantics — every non-positive real input
(including `-∞`), but not NaN and not `+∞`; over the real-valued model,
`analyzeFrequency hz` is `none` iff `hz ≤ 0`. -/
theorem c5_no_signal_iff_nonpositive :
    (∀ hz : ℝ, analyzeFrequency hz = none ↔ hz ≤ 0) ∧
      (∀ x : Fp, analyzeReturnsNone x = true ↔
        x = Fp.negInf ∨ ∃ q : ℚ, x = Fp.fin q ∧ q ≤ 0) := by
  constructor
  · intro hz
    unfold analyzeFrequency
    split_ifs with h
    · simp [h]
    · simp [h]
  · intro x
    cases x with
    | fin q =>
      simp only [analyzeReturnsNone, fpLeZero, decide_eq_true_eq]
      constructor
      · intro h
        exact Or.inr ⟨q, rfl, h⟩
      · rintro (h | ⟨q', hq', hle⟩)
        · exact absurd h (by simp)
        · cases hq'
          exact hle
    | nan => simp [analyzeReturnsNone, fpLeZero]
    | posInf => simp [analyzeReturnsNone, fpLeZero]
    | negInf => simp [analyzeReturnsNone, fpLeZero]

/-- C5 witness: the amended characterization applied at `-∞` and at the
concrete real input `-5`. -/
theorem c5_witness :
    analyzeReturnsNone Fp.negInf = true ∧ analyzeFrequency (-5 : ℝ) = none :=
  ⟨(c5_no_signal_iff_nonpositive.2 Fp.negInf).mpr (Or.inl rfl),
    (c5_no_signal_iff_nonpositive.1 (-5 : ℝ)).mpr (by norm_num)⟩

/-! ## Chart loaders (src/src/main.cpp lines 133-160, src/src/chart_mss.cpp)

The loaders read a file with `std::ifstream` and parse it with nlohmann-json
(`f >> j`), which THROWS a `parse_error` on malformed text; typed accessors
(`get<double>()`, `value(key, default)`) throw a `type_error` on a wrongly
typed field.  Exceptions are modelled with `Except CppErr`; a JSON document
with a small AST.  `std::sort` (main.cpp line 156, chart_mss.cpp line 44) is
specified by the C++ standard only up to "some permutation ordered by the
comparator" — it is NOT stable — so the sorting step is modelled by the
relation `SortByTms` over all outcomes the contract permits. -/

/-- A parsed JSON document. -/
inductive J where
  | null
  | jb (b : Bool)
  | num (q : ℚ)
  | str (s : String)
  | arr (xs : List J)
  | obj (kvs : List (String × J))

/-- The exceptions the loaders can raise: nlohmann `parse_error` from
`f >> j`, nlohmann `type_error` from typed accessors. -/
inductive CppErr where
  | parseError
  | typeError
deriving DecidableEq

/-- Key lookup in a JSON object's field list (first match). -/
def jLookup : List (String × J) → String → Option J
  | [], _ => none
  | (k', v) :: rest, k => if k' = k then some v else jLookup rest k

/-- Embeds `j.contains(key)` composed with `j[key]`: `some` value when `j` is
an object containing the key, else `none` (nlohmann `contains` is false on
non-objects). -/
def jGet (j : J) (k : String) : Option J :=
  match j with
  | J.obj kvs => jLookup kvs k
  | _ => none

/-- Embeds `static_cast` of a C++ double to an integer type: truncation
toward zero. -/
def truncQ (q : ℚ) : ℤ := if 0 ≤ q then ⌊q⌋ else -⌊-q⌋

/-- Embeds `std::llround`: rounding halfway cases away from zero. -/
def llroundQ (q : ℚ) : ℤ := if 0 ≤ q then ⌊q + 1 / 2⌋ else ⌈q - 1 / 2⌉

/-- Embeds `get<double>()`: numbers convert, everything else throws
`type_error`. -/
def getNum : J → Except CppErr ℚ
  | J.num q => Except.ok q
  | _ => Except.error CppErr.typeError

/-- Embeds `get<int>()` / `get<int64_t>()`: any JSON number converts (floats
by `static_cast` truncation), everything else throws `type_error`. -/
def getIntC : J → Except CppErr ℤ
  | J.num q => Except.ok (truncQ q)
  | _ => Except.error CppErr.typeError

/-- Embeds `get<std::string>()`. -/
def getString : J → Except CppErr String
  | J.str s => Except.ok s
  | _ => Except.error CppErr.typeError

/-- Embeds `n.value(key, default)` for an integer default: `type_error` on a
non-object, the default when the key is absent, `get<int>` otherwise. -/
def jValueInt (n : J) (k : String) (d : ℤ) : Except CppErr ℤ :=
  match n with
  | J.obj kvs =>
    match jLookup kvs k with
    | none => Except.ok d
    | some v => getIntC v
  | _ => Except.error CppErr.typeError

/-- Embeds `n.value(key, default)` for a double default. -/
def jValueNum (n : J) (k : String) (d : ℚ) : Except CppErr ℚ :=
  match n with
  | J.obj kvs =>
    match jLookup kvs k with
    | none => Except.ok d
    | some v => getNum v
  | _ => Except.error CppErr.typeError

/-- Embeds the note-object conversion of `loadChart` (main.cpp lines
144-154): fields `t`, `str`, `fret`, `len` via `value` with defaults
0, 1, 0, 240; optional `slide` (member default -1); optional `techs` string
array (skipped unless present and an array). -/
def noteOfJson (n : J) : Except CppErr NoteEvent := do
  let t ← jValueInt n "t" 0
  let s ← jValueInt n "str" 1
  let f ← jValueInt n "fret" 0
  let len ← jValueInt n "len" 240
  let slide ← match jGet n "slide" with
    | some v => getIntC v
    | none => Except.ok (-1)
  let techs ← match jGet n "techs" with
    | some (J.arr ts) => ts.mapM getString
    | _ => Except.ok []
  Except.ok (NoteEvent.mk t s f len slide techs)

/-- Embeds the `meta.bpm` extraction shared by both loaders (main.cpp lines
138-140, chart_mss.cpp lines 13-15): default 120. -/
def metaBpm (j : J) : Except CppErr ℚ :=
  match jGet j "meta" with
  | some m =>
    match jGet m "bpm" with
    | some v => getNum v
    | none => Except.ok 120
  | none => Except.ok 120

/-- Embeds the `meta.title` extraction (main.cpp line 141, chart_mss.cpp
line 16): default "Example". -/
def metaTitle (j : J) : Except CppErr String :=
  match jGet j "meta" with
  | some m =>
    match jGet m "title" with
    | some v => getString v
    | none => Except.ok "Example"
  | none => Except.ok "Example"

/-- Embeds `struct Chart` of main.cpp lines 50-54 (no tuning field), holding
the notes as pushed, BEFORE the `std::sort` call of line 156. -/
structure ChartRaw where
  notes : List NoteEvent
  bpm : ℚ
  title : String
deriving DecidableEq

/-- A chart source as the loaders see it: a file that cannot be opened
(`!f`), a file whose content does not parse as JSON, or a parsed document. -/
inductive ChartSrc where
  | unreadable
  | malformed
  | wellFormed (j : J)

/-- Embeds the notes loop of `loadChart` (main.cpp lines 143-155): per-note
conversion when `notes` is present and an array, else no notes. -/
def flatNotesOfJson (j : J) : Except CppErr (List NoteEvent) :=
  match jGet j "notes" with
  | some (J.arr ns) => ns.mapM noteOfJson
  | _ => Except.ok []

/-- Embeds `loadChart` (main.cpp lines 133-160) up to the final `std::sort`
(modelled separately by `SortByTms`): an unopenable file returns `nullopt`;
malformed content makes `f >> j` throw a `parse_error` that propagates
(there is no try/catch); wrongly typed fields likewise propagate a
`type_error`. -/
def loadChartRaw : ChartSrc → Except CppErr (Option ChartRaw)
  | ChartSrc.unreadable => Except.ok none
  | ChartSrc.malformed => Except.error CppErr.parseError
  | ChartSrc.wellFormed j => do
    let bpm ← metaBpm j
    let title ← metaTitle j
    let notes ← flatNotesOfJson j
    Except.ok (some (ChartRaw.mk notes bpm title))

/-- Embeds `app.chart = loadChart(chartPath).value_or(Chart{})` (main.cpp
line 668): the empty-chart fallback applies only to an unengaged optional; an
exception bypasses it. -/
def sessionChartOf (r : Except CppErr (Option ChartRaw)) : Except CppErr ChartRaw :=
  r.map (fun o => o.getD (ChartRaw.mk [] 120 "Example"))

/-- The contract of `std::sort(notes, [](a, b){ return a.t_ms < b.t_ms; })`
(main.cpp lines 156-157, chart_mss.cpp lines 44-45): the output is some
permutation of the input in which no later element compares strictly below an
earlier one.  `std::sort` is not stable, so this relation (not a particular
permutation) is everything the C++ standard guarantees. -/
def SortByTms (inp outp : List NoteEvent) : Prop :=
  List.Perm inp outp ∧ List.Pairwise (fun a b => ¬(b.t_ms < a.t_ms)) outp

/-- Embeds `struct Chart` of chart.hpp lines 18-24, including the `tuning`
member with default `{40,45,50,55,59,64}`. -/
structure Chart where
  notes : List NoteEvent
  bpm : ℚ
  title : String
  tuning : List ℤ
deriving DecidableEq

/-- The default tuning of chart.hpp line 23. -/
def defaultTuning : List ℤ := [40, 45, 50, 55, 59, 64]

/-- Embeds the tuning extraction of `loadChartMss` (chart_mss.cpp lines
17-22): only read when `meta.tuning` is a 6-element array; each element
replaces the default only when it is an integer JSON number. -/
def metaTuning (j : J) : List ℤ :=
  match jGet j "meta" with
  | some m =>
    match jGet m "tuning" with
    | some (J.arr ts) =>
      if ts.length = 6 then
        (List.range 6).map (fun i =>
          match ts.getD i J.null with
          | J.num q => if q.den = 1 then q.num else defaultTuning.getD i 0
          | _ => defaultTuning.getD i 0)
      else defaultTuning
    | _ => defaultTuning
  | none => defaultTuning

/-- Embeds the inner note conversion of `loadChartMss` (chart_mss.cpp lines
30-38): `string`/`fret` via `value` with defaults 1/0; absolute beat is
`value("beat", 0.0) + measureStartBeats`; `t_ms`/`len_ms` by `llround` of
beat·beatMs and sustain·beatMs. -/
def mssNoteOfJson (beatMs : ℚ) (measureStartBeats : ℚ) (n : J) : Except CppErr NoteEvent := do
  let s ← jValueInt n "string" 1
  let f ← jValueInt n "fret" 0
  let b ← jValueNum n "beat" 0
  let sus ← jValueNum n "sustain" 0
  Except.ok (NoteEvent.mk (llroundQ ((b + measureStartBeats) * beatMs)) s f
    (llroundQ (sus * beatMs)) (-1) [])

/-- Embeds one measure of `loadChartMss` (chart_mss.cpp lines 26-40): the
measure at index `idx` starts at beat `idx * 4` (4/4 assumed); notes are
converted when `notes` is present and an array. -/
def mssMeasureNotes (beatMs : ℚ) (idx : ℕ) (mj : J) : Except CppErr (List NoteEvent) :=
  match jGet mj "notes" with
  | some (J.arr ns) => ns.mapM (mssNoteOfJson beatMs ((idx : ℚ) * 4))
  | _ => Except.ok []

/-- Embeds the measures loop of `loadChartMss` (chart_mss.cpp lines 25-42):
measure indices count up from 0. -/
def mssNotesOfJson (beatMs : ℚ) (j : J) : Except CppErr (List NoteEvent) :=
  match jGet j "measures" with
  | some (J.arr ms) => do
    let lss ← ms.enum.mapM (fun p => mssMeasureNotes beatMs p.1 p.2)
    Except.ok lss.flatten
  | _ => Except.ok []

/-- Embeds `loadChartMss` (chart_mss.cpp lines 8-47) up to the final
`std::sort` (modelled by `SortByTms`), with the same failure behavior as
`loadChartRaw`: `beatMs = 60000 / bpm`. -/
def loadChartMssRaw : ChartSrc → Except CppErr (Option Chart)
  | ChartSrc.unreadable => Except.ok none
  | ChartSrc.malformed => Except.error CppErr.parseError
  | ChartSrc.wellFormed j => do
    let bpm ← metaBpm j
    let title ← metaTitle j
    let tuning := metaTuning j
    let notes ← mssNotesOfJson (60000 / bpm) j
    Except.ok (some (Chart.mk notes bpm title tuning))

/-- C4 counterexample: a chart file with malformed content does not make the
loader return "no chart" — the nlohmann parse exception propagates out of
`loadChart` uncaught, bypassing the `value_or` fallback. -/
theorem c4_counterexample :
    loadChartRaw ChartSrc.malformed = Except.error CppErr.parseError := rfl

/-- C4 (amended): a missing or unreadable chart source makes the loader
return no chart and the session falls back to the default-constructed empty
chart; malformed content or a wrongly typed field instead raises an
exception that propagates out of both loaders, so no fallback happens
there. -/
theorem c4_error_behavior :
    loadChartRaw ChartSrc.unreadable = Except.ok none ∧
      sessionChartOf (loadChartRaw ChartSrc.unreadable) =
        Except.ok (ChartRaw.mk [] 120 "Example") ∧
      loadChartRaw ChartSrc.malformed = Except.error CppErr.parseError ∧
      loadChartMssRaw ChartSrc.malformed = Except.error CppErr.parseError ∧
      loadChartRaw (ChartSrc.wellFormed (J.obj [("meta", J.obj [("bpm", J.str "fast")])])) =
        Except.error CppErr.typeError :=
  ⟨rfl, rfl, rfl, rfl, rfl⟩

/-- Two chart notes with the same start time, distinguishable by string. -/
def tieNoteA : NoteEvent := NoteEvent.mk 0 1 0 240 (-1) []

/-- The second tied note. -/
def tieNoteB : NoteEvent := NoteEvent.mk 0 2 0 240 (-1) []

/-- A flat chart document with two notes sharing start time 0. -/
def tieJson : J :=
  J.obj [("notes", J.arr [
    J.obj [("t", J.num 0), ("str", J.num 1)],
    J.obj [("t", J.num 0), ("str", J.num 2)]])]

/-- C6 counterexample: the flat loader produces the tied notes in input
order, and the reversed order is also a permitted outcome of the `std::sort`
contract (the comparator ties), so "ties keep original input order" is not
guaranteed by the code. -/
theorem c6_counterexample :
    flatNotesOfJson tieJson = Except.ok [tieNoteA, tieNoteB] ∧
      SortByTms [tieNoteA, tieNoteB] [tieNoteB, tieNoteA] ∧
      [tieNoteB, tieNoteA] ≠ [tieNoteA, tieNoteB] := by
  refine ⟨rfl, ⟨by decide, by decide⟩, by decide⟩

/-- C6 (amended): every outcome the `std::sort` contract permits for either
loader is sorted ascending by start time (non-strictly); the relative order
of notes with equal start times is unspecified because `std::sort` is not
stable. -/
theorem c6_sorted_ascending :
    (∀ (src : ChartSrc) (c : ChartRaw) (outp : List NoteEvent),
        loadChartRaw src = Except.ok (some c) → SortByTms c.notes outp →
        List.Sorted (fun a b : NoteEvent => a.t_ms ≤ b.t_ms) outp) ∧
      (∀ (src : ChartSrc) (c : Chart) (outp : List NoteEvent),
        loadChartMssRaw src = Except.ok (some c) → SortByTms c.notes outp →
        List.Sorted (fun a b : NoteEvent => a.t_ms ≤ b.t_ms) outp) := by
  constructor <;>
    · intro src c outp _ hs
      have h := hs.2
      unfold List.Sorted
      exact h.imp (fun hab => not_lt.mp hab)

/-- A flat chart document whose two notes arrive in descending time order. -/
def unsortedJson : J :=
  J.obj [("notes", J.arr [J.obj [("t", J.num 5)], J.obj [("t", J.num 3)]])]

/-- The note at 5 ms. -/
def noteAt5 : NoteEvent := NoteEvent.mk 5 1 0 240 (-1) []

/-- The note at 3 ms. -/
def noteAt3 : NoteEvent := NoteEvent.mk 3 1 0 240 (-1) []

/-- C6 witness: the sortedness half applied to a concrete loaded chart and a
concrete sort outcome. -/
theorem c6_witness :
    List.Sorted (fun a b : NoteEvent => a.t_ms ≤ b.t_ms) [noteAt3, noteAt5] :=
  c6_sorted_ascending.1 (ChartSrc.wellFormed unsortedJson)
    (ChartRaw.mk [noteAt5, noteAt3] 120 "Example") [noteAt3, noteAt5] rfl
    ⟨by decide, by decide⟩

/-- The measure-chart note of `tests/mss_parser_test.cpp`:
`{beat: 0.0, string: 1, fret: 0, sustain: 1.0}`. -/
def mssNoteJson : J :=
  J.obj [("beat", J.num 0), ("string", J.num 1), ("fret", J.num 0), ("sustain", J.num 1)]

/-- The measure-chart document of `tests/mss_parser_test.cpp`. -/
def mssTestJson : J :=
  J.obj [
    ("meta", J.obj [("bpm", J.num 120), ("title", J.str "Test"),
      ("tuning", J.arr [J.num 40, J.num 45, J.num 50, J.num 55, J.num 59, J.num 64])]),
    ("measures", J.arr [J.obj [("notes", J.arr [mssNoteJson])]])]

/-- C7: the measure loader computes each note's start as
`llround((measureIndex·4 + beat) · (60000/bpm))` and its duration as
`llround(sustain · (60000/bpm))`; concretely, the test chart at bpm 120 with
`beat = 0, sustain = 1.0` in measure 0 loads to `t_ms = 0, len_ms = 500`. -/
theorem c7_mss_timing :
    (∀ (bpm : ℚ) (i : ℕ) (n : J) (e : NoteEvent) (b sus : ℚ),
        mssNoteOfJson (60000 / bpm) ((i : ℚ) * 4) n = Except.ok e →
        jValueNum n "beat" 0 = Except.ok b →
        jValueNum n "sustain" 0 = Except.ok sus →
        e.t_ms = llroundQ (((i : ℚ) * 4 + b) * (60000 / bpm)) ∧
          e.len_ms = llroundQ (sus * (60000 / bpm))) ∧
      loadChartMssRaw (ChartSrc.wellFormed mssTestJson) =
        Except.ok (some (Chart.mk [NoteEvent.mk 0 1 0 500 (-1) []] 120 "Test"
          [40, 45, 50, 55, 59, 64])) := by
  constructor
  · intro bpm i n e b sus h hb hsus
    unfold mssNoteOfJson at h
    rw [hb, hsus] at h
    cases hstr : jValueInt n "string" 1 with
    | error er =>
      rw [hstr] at h
      simp [Bind.bind, Except.bind] at h
    | ok sv =>
      cases hfret : jValueInt n "fret" 0 with
      | error er =>
        rw [hstr, hfret] at h
        simp [Bind.bind, Except.bind] at h
      | ok fv =>
        rw [hstr, hfret] at h
        simp only [Bind.bind, Except.bind] at h
        injection h with h2
        subst h2
        refine ⟨?_, rfl⟩
        show llroundQ ((b + (i : ℚ) * 4) * (60000 / bpm)) =
          llroundQ (((i : ℚ) * 4 + b) * (60000 / bpm))
        congr 1
        ring
  · have step1 : loadChartMssRaw (ChartSrc.wellFormed mssTestJson) =
        Except.ok (some (Chart.mk
          [NoteEvent.mk (llroundQ ((0 + ((0 : ℕ) : ℚ) * 4) * (60000 / 120))) 1 0
            (llroundQ ((1 : ℚ) * (60000 / 120))) (-1) []]
          120 "Test" [40, 45, 50, 55, 59, 64])) := rfl
    rw [step1]
    norm_num [llroundQ]

/-- C7 witness: the timing formula applied at the concrete test note
(bpm 120, measure 0, beat 0, sustain 1). -/
theorem c7_witness :
    (NoteEvent.mk 0 1 0 500 (-1) []).t_ms =
        llroundQ ((((0 : ℕ) : ℚ) * 4 + 0) * (60000 / 120)) ∧
      (NoteEvent.mk 0 1 0 500 (-1) []).len_ms = llroundQ (1 * (60000 / 120)) :=
  c7_mss_timing.1 120 0 mssNoteJson (NoteEvent.mk 0 1 0 500 (-1) []) 0 1
    (by
      have step1 : mssNoteOfJson (60000 / 120) (((0 : ℕ) : ℚ) * 4) mssNoteJson =
          Except.ok (NoteEvent.mk (llroundQ ((0 + ((0 : ℕ) : ℚ) * 4) * (60000 / 120))) 1 0
            (llroundQ ((1 : ℚ) * (60000 / 120))) (-1) []) := rfl
      rw [step1]
      norm_num [llroundQ])
    rfl rfl

/-- Invocation of the analyzer as the session does: `renderTuner` (main.cpp
line 589) and the overlay in `drawChart` (main.cpp line 469) call
`analyzeFrequency(hz)` with only the Hz sample — the loaded chart (and in
particular its parsed `tuning` member) is never passed in. -/
noncomputable def sessionDetect (c : Chart) (hz : ℝ) : Option DetectedNote :=
  analyzeFrequency hz

/-- A measure chart carrying a non-default (drop-D) tuning array. -/
def dropDJson : J :=
  J.obj [("meta", J.obj [("tuning",
    J.arr [J.num 38, J.num 45, J.num 50, J.num 55, J.num 59, J.num 64])])]

/-- C10: detection depends only on the Hz argument and the fixed
`kStringOpenMidi` table — two sessions whose loaded charts carry different
tuning arrays produce identical detections for the same Hz; the loader does
parse a distinct tuning into the chart, so the premise is realizable. -/
theorem c10_detection_ignores_tuning :
    (∀ (c1 c2 : Chart) (hz : ℝ), sessionDetect c1 hz = sessionDetect c2 hz) ∧
      loadChartMssRaw (ChartSrc.wellFormed dropDJson) =
        Except.ok (some (Chart.mk [] 120 "Example" [38, 45, 50, 55, 59, 64])) ∧
      [(38 : ℤ), 45, 50, 55, 59, 64] ≠ defaultTuning := by
  refine ⟨fun _ _ _ => rfl, rfl, by decide⟩
